import Mathlib

/- Shallow embedding of the kisiac storage reconciliation engine
   (src/kisiac/lvm.py and src/kisiac/filesystems.py).
   Filesystem paths are modelled as strings; Python `int` sizes are
   modelled as `Nat` (all sizes in the source come from `parse_size`,
   which yields non-negative byte counts, and `//` on non-negative
   integers agrees with `Nat` division); fallible constructions are
   modelled with `Except String`. -/

namespace Kisiac

/-- A physical volume; identity is the device path (lvm.py, `class PV`). -/
structure PV where
  device : String
deriving DecidableEq, Repr

/-- A logical volume (lvm.py, `class LV`).  `size = none` is the
"fills remaining free space" sentinel.  The source stores in `cache_for`
either a reference to the cached LV (config path) or the raw origin string
reported by the system (`LVMSetup.from_system`); every behaviour treated
here depends only on whether the field is set, so the reference is
modelled by the referenced name. -/
structure LV where
  name : String
  layout : List String
  size : Option Nat
  stripes : Nat
  stripe_size : Nat
  pv_tag : Option String
  cache_for : Option String := none
  cache_mode : Option String := none
deriving DecidableEq, Repr

/-- Python set subset test `a <= b` for layout-tag sets, which the source
keeps as `set[str]`; sets are modelled as lists compared by membership. -/
def pySubset (a b : List String) : Bool :=
  a.all fun x => b.contains x

/-- `LV.is_cache` (lvm.py line 39). -/
def LV.is_cache (lv : LV) : Bool :=
  lv.cache_for.isSome

/-- `LV.is_same_layout` (lvm.py lines 42-48).  Python operator precedence
makes this `a <= b or (b <= a and stripes equal and stripe_size equal)`. -/
def LV.is_same_layout (a b : LV) : Bool :=
  pySubset a.layout b.layout ||
    (pySubset b.layout a.layout && a.stripes == b.stripes &&
      a.stripe_size == b.stripe_size)

/-- `LV.fills_vg` (lvm.py lines 63-64). -/
def LV.fills_vg (lv : LV) : Bool :=
  lv.size.isNone

/-- The nested `simplify` helper of `LV.is_same_size` (lvm.py lines 57-59):
truncate a byte count to its 10^7-byte bucket. -/
def simplify (size : Nat) : Nat :=
  size / 10 ^ 7

/-- `LV.is_same_size` (lvm.py lines 50-61).  The source's `assert` that
both sizes are present in the non-fills branch is modelled as an
`Except.error`. -/
def LV.is_same_size (a b : LV) : Except String Bool :=
  if a.fills_vg || b.fills_vg then
    .ok (a.fills_vg && b.fills_vg)
  else
    match a.size, b.size with
    | some sa, some sb => .ok (simplify sa == simplify sb)
    | _, _ => .error "AssertionError: self.size is not None and other.size is not None"

/-- Construction of an `LV`, including the `__post_init__` check
(lvm.py lines 33-37): a `cache_for` without a `cache_mode` raises a
`UserError` naming the LV. -/
def mkLV (name : String) (layout : List String) (size : Option Nat)
    (stripes stripe_size : Nat) (pv_tag cache_for cache_mode : Option String) :
    Except String LV :=
  if cache_for.isSome && cache_mode.isNone then
    .error ("LV " ++ name ++
      " defined as cache but not cache_mode defined. Define either writethrough or writeback.")
  else
    .ok ⟨name, layout, size, stripes, stripe_size, pv_tag, cache_for, cache_mode⟩

/-- Python `str.split(",")`: split a character list at every comma;
the empty string yields `[[]]`, matching `"".split(",") == [""]`. -/
def pySplitCommaAux : List Char → List Char → List (List Char)
  | [], acc => [acc.reverse]
  | ',' :: rest, acc => acc.reverse :: pySplitCommaAux rest []
  | c :: rest, acc => pySplitCommaAux rest (c :: acc)

/-- Python `str.split(",")` on strings. -/
def pySplitComma (s : String) : List String :=
  (pySplitCommaAux s.data []).map String.mk

/-- One record of the `lvs` JSON report consumed by `LVMSetup.from_system`
(lvm.py lines 182-196): lv name, vg name, comma-separated layout, size in
bytes (the source parses the `"...B"` string with the external
`humanfriendly.parse_size`, modelled as an already-parsed byte count),
stripe count, stripe size, and origin. -/
structure LvsRecord where
  lv_name : String
  vg_name : String
  lv_layout : String
  lv_size : Nat
  stripes : Nat
  stripe_size : Nat
  origin : String
deriving DecidableEq, Repr

/-- The LV built by `LVMSetup.from_system` for one `lvs` record
(lvm.py lines 267-283): a non-empty `origin` becomes `cache_for`
(Python `if not cache_for: cache_for = None`), the layout is the
comma-split of `lv_layout`, the size is always concrete, and no
`cache_mode` is passed to the `LV` constructor. -/
def lvFromSystemRecord (pv_tag : Option String) (e : LvsRecord) :
    Except String LV :=
  let cache_for := if e.origin = "" then none else some e.origin
  mkLV e.lv_name (pySplitComma e.lv_layout) (some e.lv_size) e.stripes
    e.stripe_size pv_tag cache_for none

/-- Helper for `matchReport`: split a character list at its last `'('`
that is followed by at least one further character, returning the parts
before and after that parenthesis.  This is the split the greedy regex
`^(?P<device>.+)\((?P<info>.+)\)$` performs on the text between the string
start and the final `')'` (the greedy `.+` of `device` backtracks to the
last `'('` that still leaves a non-empty `info`). -/
def splitLastParenNE : List Char → Option (List Char × List Char)
  | [] => none
  | c :: cs =>
    match splitLastParenNE cs with
    | some (d, i) => some (c :: d, i)
    | none => if c = '(' ∧ cs ≠ [] then some ([], cs) else none

/-- Model of `VGS_DEVICE_REPORT_RE.match` (lvm.py line 14), the regex
`^(?P<device>.+)\((?P<info>.+)\)$` under `re.match`: `.` does not match a
newline and `$` also matches just before one trailing newline, so a single
trailing newline is stripped, any other newline defeats the match; the
remainder must end in `')'` and split at the last `'('` leaving both a
non-empty device and a non-empty info. -/
def matchReportCore (s : List Char) : Option (List Char × List Char) :=
  if '\n' ∈ s then none
  else if s.getLast? = some ')' then
    match splitLastParenNE s.dropLast with
    | some (d, i) => if d = [] then none else some (d, i)
    | none => none
  else none

/-- `matchReport` proper: strip one trailing newline (where `$` may also
match), then run the core match. -/
def matchReport (s : List Char) : Option (List Char × List Char) :=
  matchReportCore (if s.getLast? = some '\n' then s.dropLast else s)

/-- Helper for `pyIntParses`: a non-empty digit sequence in which single
underscores may sit between two digits (CPython's integer-literal rule for
`int(...)`). -/
def digitsUnd : List Char → Bool
  | [] => false
  | [c] => c.isDigit
  | c :: '_' :: rest => c.isDigit && digitsUnd rest
  | c :: rest => c.isDigit && digitsUnd rest

/-- Whether CPython `int(str)` succeeds (for ASCII inputs): surrounding
whitespace is stripped, then an optional single sign precedes digits with
optional single underscores between them. -/
def pyIntParses (s : List Char) : Bool :=
  let t := ((s.dropWhile Char.isWhitespace).reverse.dropWhile
    Char.isWhitespace).reverse
  match t with
  | '+' :: rest => digitsUnd rest
  | '-' :: rest => digitsUnd rest
  | rest => digitsUnd rest

/-- `get_missing_pvs` (lvm.py lines 287-300), fully consumed as at its
call site (lvm.py line 236): for each report string, a regex mismatch is
an assertion failure; an info of `"missing"` yields the device as a PV;
an info parsing as an integer is skipped; anything else raises
`ValueError`. -/
def get_missing_pvs : List String → Except String (List PV)
  | [] => .ok []
  | r :: rs =>
    match matchReport r.data with
    | none => .error ("Invalid device report: " ++ r)
    | some (d, i) =>
      if String.mk i = "missing" then
        match get_missing_pvs rs with
        | .ok pvs => .ok (PV.mk (String.mk d) :: pvs)
        | .error e => .error e
      else if pyIntParses i then get_missing_pvs rs
      else .error ("Unexpected vgs device info: " ++ String.mk i)

/-- Rendering of a (device, info) pair in the device-report grammar
`<device>(<info>)`. -/
def renderReport (p : String × String) : String :=
  p.1 ++ "(" ++ p.2 ++ ")"

/-- Model of `re.sub(r"(?P<pre>[^-])-(?P<post>[^-])", r"\g<pre>/\g<post>", s, count=1)`
(filesystems.py lines 167-172): scan left to right for the first hyphen
flanked by two non-hyphens, replace the three matched characters by
`pre / post`, and leave the rest untouched. -/
def subFirstSingleHyphen : List Char → List Char
  | [] => []
  | [a] => [a]
  | [a, b] => [a, b]
  | a :: b :: c :: rest =>
    if a ≠ '-' ∧ b = '-' ∧ c ≠ '-' then a :: '/' :: c :: rest
    else a :: subFirstSingleHyphen (b :: c :: rest)

/-- Model of Python `str.replace("--", "-")` (filesystems.py line 172):
one left-to-right pass replacing non-overlapping doubled hyphens. -/
def collapseDoubleHyphens : List Char → List Char
  | [] => []
  | [a] => [a]
  | a :: b :: rest =>
    if a = '-' ∧ b = '-' then '-' :: collapseDoubleHyphens rest
    else a :: collapseDoubleHyphens (b :: rest)

/-- The alias-expansion string transform applied to the name of each
device-mapper device (filesystems.py lines 167-172): substitute the first
single hyphen with a path separator, then collapse doubled hyphens. -/
def dmAliasTransform (s : String) : String :=
  String.mk (collapseDoubleHyphens (subFirstSingleHyphen s.data))

/-- Observation helper: whether a character list contains two adjacent
hyphens. -/
def hasDoubleHyphen : List Char → Bool
  | [] => false
  | [_] => false
  | a :: b :: rest => (a = '-' && b = '-') || hasDoubleHyphen (b :: rest)

/-- One block device of the discovered tree (filesystems.py,
`class DeviceInfo`). -/
inductive DeviceInfo where
  | mk (device : String) (device_type : String) (fs_type : Option String)
      (label : Option String) (uuid : Option String)
      (children : List DeviceInfo)

/-- Field accessor for `DeviceInfo.device`. -/
def DeviceInfo.device : DeviceInfo → String
  | .mk d _ _ _ _ _ => d

/-- Field accessor for `DeviceInfo.device_type`. -/
def DeviceInfo.device_type : DeviceInfo → String
  | .mk _ t _ _ _ _ => t

/-- Field accessor for `DeviceInfo.fs_type`. -/
def DeviceInfo.fs_type : DeviceInfo → Option String
  | .mk _ _ f _ _ _ => f

/-- Field accessor for `DeviceInfo.label`. -/
def DeviceInfo.label : DeviceInfo → Option String
  | .mk _ _ _ l _ _ => l

/-- Field accessor for `DeviceInfo.uuid`. -/
def DeviceInfo.uuid : DeviceInfo → Option String
  | .mk _ _ _ _ u _ => u

/-- `DeviceInfo.with_device` (filesystems.py lines 122-125): a shallow
copy with a different device path; the copy shares the children. -/
def DeviceInfo.with_device : DeviceInfo → String → DeviceInfo
  | .mk _ t f l u c, d => .mk d t f l u c

/-- One entry of the `lsblk --json` output consumed by
`DeviceInfos._from_system` (filesystems.py lines 138-152): name, type,
fstype, label, uuid and nested children. -/
inductive LsblkEntry where
  | mk (name : String) (etype : String) (fstype : Option String)
      (label : Option String) (uuid : Option String)
      (children : List LsblkEntry)

/-- `Path.name` for the path strings of this model: the final path
component. -/
def pathName (p : String) : String :=
  (p.splitOn "/").getLastD ""

/-- `Path.is_relative_to(Path("/dev/mapper"))` for the path strings of
this model. -/
def isMapperPath (p : String) : Bool :=
  p = "/dev/mapper" || p.startsWith "/dev/mapper/"

mutual

/-- `parse_entry` of `DeviceInfos._from_system` (filesystems.py lines
154-177): build the `DeviceInfo` for one entry and return, in order, the
infos the call appends to `self.infos` when `update` is set — the entry
itself, then (for a device-mapper path) its alias under the transformed
`/dev/vgname/lvname` path, then the appends of its children.  The source
appends the node object before filling its children and the alias is a
shallow copy sharing the children list, so both appended objects carry the
fully parsed children. -/
def parseEntry (update : Bool) : LsblkEntry → DeviceInfo × List DeviceInfo
  | .mk name etype fstype label uuid children =>
    let ps := parseEntryList update children
    let di := DeviceInfo.mk name etype fstype label uuid ps.1
    let appended :=
      if update then
        if isMapperPath name then
          [di, di.with_device ("/dev/" ++ dmAliasTransform (pathName name))]
        else [di]
      else []
    (di, appended ++ ps.2)

/-- `parse_entry` folded over a list of entries, keeping both the parsed
infos and the concatenated appends. -/
def parseEntryList (update : Bool) :
    List LsblkEntry → List DeviceInfo × List DeviceInfo
  | [] => ([], [])
  | e :: es =>
    let p := parseEntry update e
    let ps := parseEntryList update es
    (p.1 :: ps.1, p.2 ++ ps.2)

end

/-- `DeviceInfos._from_system` (filesystems.py lines 134-185).  The live
`lsblk` call is abstracted by `oracle`, which returns the parsed JSON
block-device list for an optional single-device narrowing, or `none` when
the command fails (`run_cmd` then raises a user error carrying the
"possible typo" hint exactly when a device was requested).  Returns the
`DeviceInfo` of the last top-level entry when a device was requested
(asserting one exists) and the updated `self.infos` list, which grows only
when `update` is set. -/
def fromSystem (oracle : Option String → Option (List LsblkEntry))
    (infos : List DeviceInfo) (update : Bool) (device : Option String) :
    Except String (Option DeviceInfo × List DeviceInfo) :=
  match oracle device with
  | none =>
    .error ("Unable to retrieve device info." ++
      if device.isSome then "Typo in the device name?" else "")
  | some entries =>
    let ps := parseEntryList update entries
    let infos' := if update then infos ++ ps.2 else infos
    match device with
    | some _ =>
      match ps.1.getLast? with
      | none => .error "AssertionError: device_info is not None"
      | some di => .ok (some di, infos')
    | none => .ok (ps.1.getLast?, infos')

/-- Modelled from the spec: the desired-filesystem entry of
`kisiac.config` (not under src/) as §3 and §6 describe it — a target
selector (explicit device path, or label, or UUID, the device path taking
precedence), the required filesystem type and an optional mountpoint. -/
structure Filesystem where
  device : Option String
  label : Option String
  uuid : Option String
  fs_type : String
  mountpoint : Option String
deriving DecidableEq, Repr

/-- The `is_targeted_by_filesystem` closure of `DeviceInfos.get_info`
(filesystems.py lines 188-194): when the selector carries a label only
labels are compared; otherwise, when it carries a UUID, UUIDs are
compared; otherwise nothing matches. -/
def is_targeted_by_filesystem (fs : Filesystem) (info : DeviceInfo) : Bool :=
  match fs.label with
  | some l => info.label == some l
  | none =>
    match fs.uuid with
    | some u => info.uuid == some u
    | none => false

/-- The not-found message of `DeviceInfos.get_info` (filesystems.py lines
203-206), with Python's `None` rendering of absent fields. -/
def noDeviceFoundMsg (fs : Filesystem) : String :=
  "No device found for filesystem with device=" ++ fs.device.getD "None" ++
    ", label=" ++ fs.label.getD "None" ++ ", uuid=" ++ fs.uuid.getD "None"

/-- `DeviceInfos.get_info_for_device` (filesystems.py lines 208-220):
check the cached list first; on a miss, issue one further single-device
query with `update=False` and return its result.  The result is
instrumented with the resulting `self.infos` list and the number of
system queries the call performed. -/
def get_info_for_device (oracle : Option String → Option (List LsblkEntry))
    (infos : List DeviceInfo) (device : String) :
    Except String (DeviceInfo × List DeviceInfo × Nat) :=
  match infos.find? (fun i => i.device == device) with
  | some info => .ok (info, infos, 0)
  | none =>
    match fromSystem oracle infos false (some device) with
    | .error e => .error e
    | .ok (none, _) => .error "AssertionError: found_device is not None"
    | .ok (some di, infos') => .ok (di, infos', 1)

/-- `DeviceInfos.get_info` (filesystems.py lines 187-206): an explicit
device path is resolved through the single-device lookup; otherwise the
first cached info the selector targets is returned, else a not-found
error. -/
def get_info (oracle : Option String → Option (List LsblkEntry))
    (infos : List DeviceInfo) (fs : Filesystem) : Except String DeviceInfo :=
  match fs.device with
  | some d => (get_info_for_device oracle infos d).map (fun r => r.1)
  | none =>
    match infos.find? (is_targeted_by_filesystem fs) with
    | some info => .ok info
    | none => .error (noDeviceFoundMsg fs)

/-- A failure of the mount-enforcement phase. -/
inductive MountError where
  | mkdirFailed (mountpoint : String) (returncode : Nat)
  | mountFailed (mountpoint : String) (returncode : Nat)
deriving DecidableEq, Repr

/-- The mount-enforcement loop of `update_filesystems` (filesystems.py
lines 55-68): for every desired filesystem with a mountpoint, run
`mkdir -p` (whose non-zero exit raises, `run_cmd` default) and then
`mount` with `user_error=False`; a `CalledProcessError` with returncode 5
("already mounted") is swallowed, any other non-zero returncode is
re-raised.  The exit statuses of the external commands are abstracted by
the `mkdirRc`/`mountRc` oracles, and the list of issued command vectors
is returned. -/
def update_filesystems_mounts (fss : List Filesystem)
    (mkdirRc mountRc : String → Nat) :
    Except MountError (List (List String)) :=
  match fss with
  | [] => .ok []
  | fs :: rest =>
    match fs.mountpoint with
    | none => update_filesystems_mounts rest mkdirRc mountRc
    | some mp =>
      if mkdirRc mp ≠ 0 then .error (.mkdirFailed mp (mkdirRc mp))
      else if mountRc mp = 0 ∨ mountRc mp = 5 then
        match update_filesystems_mounts rest mkdirRc mountRc with
        | .ok cmds => .ok (["mkdir", "-p", mp] :: ["mount", mp] :: cmds)
        | .error e => .error e
      else .error (.mountFailed mp (mountRc mp))

/-- The command vectors the mount-enforcement loop issues when every
mount succeeds or is already mounted. -/
def mountCmds (fss : List Filesystem) : List (List String) :=
  fss.flatMap fun fs =>
    match fs.mountpoint with
    | none => []
    | some mp => [["mkdir", "-p", mp], ["mount", mp]]

/-- C1: `is_same_layout A B` holds exactly when `A.layout ⊆ B.layout`, or
`B.layout ⊆ A.layout` together with equal stripe counts and stripe sizes;
the `A ⊆ B` branch ignores the stripe fields, so a pair with
`A.layout ⊊ B.layout` and differing stripes satisfies
`is_same_layout A B` but not `is_same_layout B A`. -/
theorem c1_is_same_layout_characterization :
    (∀ A B : LV, A.is_same_layout B = true ↔
      ((∀ x ∈ A.layout, x ∈ B.layout) ∨
        ((∀ x ∈ B.layout, x ∈ A.layout) ∧ A.stripes = B.stripes ∧
          A.stripe_size = B.stripe_size)))
    ∧ LV.is_same_layout ⟨"thin", ["linear"], some 1024, 1, 0, none, none, none⟩
        ⟨"wide", ["linear", "raid1"], some 1024, 2, 0, none, none, none⟩ = true
    ∧ LV.is_same_layout ⟨"wide", ["linear", "raid1"], some 1024, 2, 0, none, none, none⟩
        ⟨"thin", ["linear"], some 1024, 1, 0, none, none, none⟩ = false
    ∧ pySubset ["linear"] ["linear", "raid1"] = true
    ∧ pySubset ["linear", "raid1"] ["linear"] = false
    ∧ (1 : Nat) ≠ 2 := by
  refine ⟨fun A B => ?_, by decide, by decide, by decide, by decide, by decide⟩
  simp only [LV.is_same_layout, Bool.or_eq_true, Bool.and_eq_true, beq_iff_eq,
    pySubset, List.all_eq_true, List.contains, List.elem_eq_mem,
    decide_eq_true_iff, and_assoc]

/-- C3: `is_same_size` returns `both fill` when either LV fills the
remaining free space, and otherwise compares the sizes truncated to their
10,000,000-byte bucket, so distinct sizes in one bucket compare equal and
a pair where exactly one LV fills the VG compares unequal. -/
theorem c3_is_same_size_buckets :
    (∀ A B : LV, (A.fills_vg || B.fills_vg) = true →
      A.is_same_size B = .ok (A.fills_vg && B.fills_vg))
    ∧ (∀ A B : LV, ∀ sa sb : Nat, A.size = some sa → B.size = some sb →
      A.is_same_size B = .ok (decide (sa / 10000000 = sb / 10000000)))
    ∧ (∀ A B : LV, A.fills_vg = true → B.fills_vg = false →
      A.is_same_size B = .ok false)
    ∧ LV.is_same_size ⟨"a", [], some 20000001, 1, 0, none, none, none⟩
        ⟨"b", [], some 29999999, 1, 0, none, none, none⟩ = .ok true
    ∧ (20000001 : Nat) ≠ 29999999
    ∧ LV.is_same_size ⟨"rest", [], none, 1, 0, none, none, none⟩
        ⟨"b", [], some 29999999, 1, 0, none, none, none⟩ = .ok false := by
  refine ⟨fun A B h => ?_, fun A B sa sb ha hb => ?_, fun A B ha hb => ?_,
    by rfl, by decide, by rfl⟩
  · simp [LV.is_same_size, h]
  · have hA : A.fills_vg = false := by simp [LV.fills_vg, ha]
    have hB : B.fills_vg = false := by simp [LV.fills_vg, hb]
    simp only [LV.is_same_size, hA, hB, Bool.or_self, if_neg Bool.false_ne_true,
      ha, hb]
    congr 1
  · simp [LV.is_same_size, ha, hb]

/-- Witness for C3 at concrete inputs: sizes 20000001 and 29999999 share
the bucket 2 and compare equal, and a fills-the-VG LV compares unequal to
a sized one. -/
theorem c3_is_same_size_buckets_witness :
    ((⟨"a", [], some 20000001, 1, 0, none, none, none⟩ : LV).size = some 20000001
      ∧ (⟨"b", [], some 29999999, 1, 0, none, none, none⟩ : LV).size = some 29999999
      ∧ LV.is_same_size ⟨"a", [], some 20000001, 1, 0, none, none, none⟩
          ⟨"b", [], some 29999999, 1, 0, none, none, none⟩ =
        .ok (decide ((20000001 : Nat) / 10000000 = 29999999 / 10000000)))
    ∧ ((⟨"rest", [], none, 1, 0, none, none, none⟩ : LV).fills_vg = true
      ∧ (⟨"b", [], some 29999999, 1, 0, none, none, none⟩ : LV).fills_vg = false
      ∧ LV.is_same_size ⟨"rest", [], none, 1, 0, none, none, none⟩
          ⟨"b", [], some 29999999, 1, 0, none, none, none⟩ = .ok false) := by
  refine ⟨⟨rfl, rfl, ?_⟩, rfl, rfl, ?_⟩
  · exact c3_is_same_size_buckets.2.1 _ _ 20000001 29999999 rfl rfl
  · exact c3_is_same_size_buckets.2.2.1 _ _ rfl rfl

/-- C5: constructing an LV with `cache_for` set and `cache_mode` unset
raises a configuration error whose message names the LV; with `cache_for`
unset or `cache_mode` set the construction succeeds. -/
theorem c5_mkLV_cache_mode_check :
    ∀ (name : String) (layout : List String) (size : Option Nat)
      (stripes stripe_size : Nat) (pv_tag cache_for cache_mode : Option String),
      (∀ cf, cache_for = some cf → cache_mode = none →
        mkLV name layout size stripes stripe_size pv_tag cache_for cache_mode =
          .error ("LV " ++ name ++
            " defined as cache but not cache_mode defined. Define either writethrough or writeback."))
      ∧ (cache_for = none →
        mkLV name layout size stripes stripe_size pv_tag cache_for cache_mode =
          .ok ⟨name, layout, size, stripes, stripe_size, pv_tag, cache_for, cache_mode⟩)
      ∧ (∀ cm, cache_mode = some cm →
        mkLV name layout size stripes stripe_size pv_tag cache_for cache_mode =
          .ok ⟨name, layout, size, stripes, stripe_size, pv_tag, cache_for, cache_mode⟩) := by
  intro name layout size stripes stripe_size pv_tag cache_for cache_mode
  refine ⟨fun cf hcf hcm => ?_, fun hcf => ?_, fun cm hcm => ?_⟩
  · simp [mkLV, hcf, hcm]
  · simp [mkLV, hcf]
  · simp [mkLV, hcm]

/-- Witness for C5 at concrete inputs: the cache LV without a mode errors
with a message naming it, and the same construction with a mode set
succeeds. -/
theorem c5_mkLV_cache_mode_check_witness :
    (some "origin0" = some "origin0" ∧ (none : Option String) = none ∧
      mkLV "cache0" [] (some 1024) 1 0 none (some "origin0") none =
        .error "LV cache0 defined as cache but not cache_mode defined. Define either writethrough or writeback.")
    ∧ mkLV "cache0" [] (some 1024) 1 0 none (some "origin0") (some "writeback") =
        .ok ⟨"cache0", [], some 1024, 1, 0, none, some "origin0", some "writeback"⟩ := by
  refine ⟨⟨rfl, rfl, ?_⟩, ?_⟩
  · exact (c5_mkLV_cache_mode_check "cache0" [] (some 1024) 1 0 none
      (some "origin0") none).1 "origin0" rfl rfl
  · exact (c5_mkLV_cache_mode_check "cache0" [] (some 1024) 1 0 none
      (some "origin0") (some "writeback")).2.2 "writeback" rfl

/-- C10: `fills_vg` holds exactly when the size field is the
fills-remaining-space sentinel `none`, and `is_same_size` never reaches
its assertion failure: it is total on all pairs of LVs. -/
theorem c10_fills_vg_and_is_same_size_total :
    ∀ A B : LV, (A.fills_vg = true ↔ A.size = none) ∧
      ∃ b : Bool, A.is_same_size B = .ok b := by
  intro A B
  constructor
  · simp [LV.fills_vg, Option.isNone_iff_eq_none]
  · rcases hA : A.size with _ | sa <;> rcases hB : B.size with _ | sb <;>
      simp [LV.is_same_size, LV.fills_vg, hA, hB]

/-- C2: `LVMSetup.from_system` maps a non-empty `origin` to a set
`cache_for` but never passes a `cache_mode`, so the `__post_init__` check
fires and the construction raises instead of succeeding; with an empty
`origin` it succeeds with `cache_for = none`. -/
theorem c2_from_system_origin_raises :
    lvFromSystemRecord none ⟨"cache0", "vg0", "linear", 1073741824, 1, 0, "data0"⟩ =
      .error "LV cache0 defined as cache but not cache_mode defined. Define either writethrough or writeback."
    ∧ lvFromSystemRecord none ⟨"data0", "vg0", "linear", 1073741824, 1, 0, ""⟩ =
      .ok ⟨"data0", ["linear"], some 1073741824, 1, 0, none, none, none⟩ := by
  constructor <;> rfl

/-- A non-empty string has a non-empty character list. -/
theorem data_ne_nil_of_ne_empty {s : String} (h : s ≠ "") : s.data ≠ [] :=
  fun hd => h (String.ext hd)

/-- `splitLastParenNE` finds nothing in a list without `'('`. -/
theorem splitLastParenNE_of_not_mem {l : List Char} (h : '(' ∉ l) :
    splitLastParenNE l = none := by
  induction l with
  | nil => rfl
  | cons c cs ih =>
    simp only [List.mem_cons, not_or] at h
    simp only [splitLastParenNE, ih h.2]
    rw [if_neg]
    intro hc
    exact h.1 hc.1.symm

/-- `splitLastParenNE` splits a rendered report at its separator when the
info part is non-empty and free of `'('`. -/
theorem splitLastParenNE_append (d : List Char) {i : List Char}
    (hi : '(' ∉ i) (hne : i ≠ []) :
    splitLastParenNE (d ++ '(' :: i) = some (d, i) := by
  induction d with
  | nil =>
    simp only [List.nil_append, splitLastParenNE,
      splitLastParenNE_of_not_mem hi]
    simp [hne]
  | cons c cs ih =>
    simp only [List.cons_append, splitLastParenNE, List.append_eq, ih]

/-- The device-report regex accepts `<device>(<info>)` and captures both
groups whenever the device and info parts are non-empty, the info holds no
`'('`, and neither holds a newline. -/
theorem matchReport_render {d i : List Char} (hd : d ≠ []) (hi : i ≠ [])
    (hpi : '(' ∉ i) (hnd : '\n' ∉ d) (hni : '\n' ∉ i) :
    matchReport ((d ++ '(' :: i) ++ [')']) = some (d, i) := by
  have h1 : ((d ++ '(' :: i) ++ [')']).getLast? = some ')' :=
    List.getLast?_concat _
  have h2 : '\n' ∉ (d ++ '(' :: i) ++ [')'] := by
    simp only [List.mem_append, List.mem_cons, List.not_mem_nil, or_false,
      not_or]
    exact ⟨⟨hnd, by decide, hni⟩, by decide⟩
  unfold matchReport
  rw [h1, if_neg (show ¬(some ')' = some '\n') by decide)]
  unfold matchReportCore
  rw [if_neg h2, if_pos h1, List.dropLast_concat,
    splitLastParenNE_append d hpi hi]
  simp [hd]

/-- The character list of a rendered report. -/
theorem renderReport_data (p : String × String) :
    (renderReport p).data = (p.1.data ++ '(' :: p.2.data) ++ [')'] := by
  have h1 : ("(" : String).data = ['('] := rfl
  have h2 : (")" : String).data = [')'] := rfl
  simp [renderReport, String.data_append, h1, h2]

/-- C4: over any list of well-formed `<device>(<info>)` reports,
`get_missing_pvs` succeeds exactly when every info is the token
`"missing"` or an integer, returning precisely the devices marked
missing, and errors as soon as some info is neither; on
`["/dev/sda1(missing)", "/dev/sdb1(12345)"]` it yields exactly
`PV "/dev/sda1"`, and a `"/dev/sdc1(corrupt)"` report raises. -/
theorem c4_get_missing_pvs_characterization :
    (∀ l : List (String × String),
      (∀ p ∈ l, p.1 ≠ "" ∧ p.2 ≠ "" ∧ '(' ∉ p.2.data ∧ '\n' ∉ p.1.data ∧
        '\n' ∉ p.2.data) →
      ((∀ p ∈ l, p.2 = "missing" ∨ pyIntParses p.2.data = true) →
        get_missing_pvs (l.map renderReport) =
          .ok (((l.filter fun p => p.2 == "missing").map fun p => PV.mk p.1)))
      ∧ ((∃ p ∈ l, p.2 ≠ "missing" ∧ pyIntParses p.2.data = false) →
        ∃ msg, get_missing_pvs (l.map renderReport) = .error msg))
    ∧ get_missing_pvs ["/dev/sda1(missing)", "/dev/sdb1(12345)"] =
        .ok [PV.mk "/dev/sda1"]
    ∧ (∃ msg, get_missing_pvs ["/dev/sdc1(corrupt)"] = .error msg) := by
  refine ⟨fun l => ?_, by rfl, ⟨_, by rfl⟩⟩
  induction l with
  | nil =>
    exact fun _ => ⟨fun _ => rfl, fun ⟨p, hp, _⟩ => absurd hp (List.not_mem_nil p)⟩
  | cons q l ih =>
    intro hwf
    obtain ⟨hq1, hq2, hq3, hq4, hq5⟩ := hwf q (List.mem_cons_self q l)
    have ihr := ih fun p hp => hwf p (List.mem_cons_of_mem q hp)
    have hmr : matchReport ((renderReport q).data) =
        some (q.1.data, q.2.data) := by
      rw [renderReport_data]
      exact matchReport_render (data_ne_nil_of_ne_empty hq1)
        (data_ne_nil_of_ne_empty hq2) hq3 hq4 hq5
    have heta1 : String.mk q.1.data = q.1 := rfl
    have heta2 : String.mk q.2.data = q.2 := rfl
    constructor
    · intro hall
      have hok := ihr.1 fun p hp => hall p (List.mem_cons_of_mem q hp)
      by_cases hm : q.2 = "missing"
      · have hf : List.filter (fun p => p.2 == "missing") (q :: l) =
            q :: List.filter (fun p => p.2 == "missing") l :=
          List.filter_cons_of_pos (by simp [hm])
        simp only [List.map_cons, get_missing_pvs, hmr, heta1, heta2,
          if_pos hm, hok, hf]
      · have hf : List.filter (fun p => p.2 == "missing") (q :: l) =
            List.filter (fun p => p.2 == "missing") l :=
          List.filter_cons_of_neg (by simp [hm])
        have hint : pyIntParses q.2.data = true :=
          ((hall q (List.mem_cons_self q l)).resolve_left hm)
        simp only [List.map_cons, get_missing_pvs, hmr, heta1, heta2,
          if_neg hm, if_pos hint, hok, hf]
    · rintro ⟨p, hp, hpm, hpint⟩
      rcases List.mem_cons.mp hp with hpq | hpl
      · subst hpq
        refine ⟨"Unexpected vgs device info: " ++ p.2, ?_⟩
        simp only [List.map_cons, get_missing_pvs, hmr, heta1, heta2,
          if_neg hpm, hpint]
        simp
      · obtain ⟨msg, hmsg⟩ := ihr.2 ⟨p, hpl, hpm, hpint⟩
        by_cases hm : q.2 = "missing"
        · refine ⟨msg, ?_⟩
          simp only [List.map_cons, get_missing_pvs, hmr, heta1, heta2,
            if_pos hm, hmsg]
        · by_cases hi : pyIntParses q.2.data = true
          · refine ⟨msg, ?_⟩
            simp only [List.map_cons, get_missing_pvs, hmr, heta1, heta2,
              if_neg hm, if_pos hi, hmsg]
          · have hi' : pyIntParses q.2.data = false := by
              rw [Bool.not_eq_true] at hi
              exact hi
            refine ⟨"Unexpected vgs device info: " ++ q.2, ?_⟩
            simp only [List.map_cons, get_missing_pvs, hmr, heta1, heta2,
              if_neg hm, hi']
            simp

/-- Witness for C4 at a concrete report list: the well-formedness and
info-side conditions hold for `[("/dev/sda1", "missing"),
("/dev/sdb1", "12345")]` and the theorem computes exactly the missing
PV. -/
theorem c4_get_missing_pvs_witness :
    (∀ p ∈ [("/dev/sda1", "missing"), ("/dev/sdb1", "12345")],
      p.1 ≠ "" ∧ p.2 ≠ "" ∧ '(' ∉ p.2.data ∧ '\n' ∉ p.1.data ∧
        '\n' ∉ p.2.data)
    ∧ (∀ p ∈ [("/dev/sda1", "missing"), ("/dev/sdb1", "12345")],
      p.2 = "missing" ∨ pyIntParses p.2.data = true)
    ∧ get_missing_pvs
        ([("/dev/sda1", "missing"), ("/dev/sdb1", "12345")].map renderReport) =
      .ok ((([("/dev/sda1", "missing"), ("/dev/sdb1", "12345")].filter
        fun p => p.2 == "missing").map fun p => PV.mk p.1)) := by
  refine ⟨by decide, by decide, ?_⟩
  exact (c4_get_missing_pvs_characterization.1 _ (by decide)).1 (by decide)

/-- On a hyphen-free input the single-hyphen substitution is the
identity. -/
theorem subFirstSingleHyphen_eq_self :
    ∀ s : List Char, '-' ∉ s → subFirstSingleHyphen s = s := by
  intro s
  induction s with
  | nil => intro _; rfl
  | cons a t ih =>
    intro h
    simp only [List.mem_cons, not_or] at h
    obtain ⟨_, ht⟩ := h
    cases t with
    | nil => rfl
    | cons b u =>
      cases u with
      | nil => rfl
      | cons c v =>
        have hb : ¬ (b = '-') := by
          intro hb
          exact ht (by simp [hb])
        simp only [subFirstSingleHyphen]
        rw [if_neg (fun hg => hb hg.2.1), ih ht]

/-- On a hyphen-free input the doubled-hyphen collapse is the identity. -/
theorem collapseDoubleHyphens_eq_self :
    ∀ s : List Char, '-' ∉ s → collapseDoubleHyphens s = s := by
  intro s
  induction s with
  | nil => intro _; rfl
  | cons a t ih =>
    intro h
    simp only [List.mem_cons, not_or] at h
    obtain ⟨ha, ht⟩ := h
    cases t with
    | nil => rfl
    | cons b u =>
      have ha' : ¬ (a = '-') := fun hc => ha hc.symm
      simp only [collapseDoubleHyphens]
      rw [if_neg (fun hg => ha' hg.1), ih ht]

/-- A hyphen-free input has no doubled hyphen. -/
theorem hasDoubleHyphen_eq_false :
    ∀ s : List Char, '-' ∉ s → hasDoubleHyphen s = false := by
  intro s
  induction s with
  | nil => intro _; rfl
  | cons a t ih =>
    intro h
    simp only [List.mem_cons, not_or] at h
    obtain ⟨ha, ht⟩ := h
    cases t with
    | nil => rfl
    | cons b u =>
      have ha' : ¬ (a = '-') := fun hc => ha hc.symm
      simp only [hasDoubleHyphen, ih ht, Bool.or_false]
      simp [ha']

/-- The substitution step replaces the separating hyphen of
`vgname-lvname` with a slash when neither name holds a hyphen. -/
theorem subFirstSingleHyphen_insert :
    ∀ vg : List Char, vg ≠ [] → '-' ∉ vg →
    ∀ lv : List Char, lv ≠ [] → '-' ∉ lv →
      subFirstSingleHyphen (vg ++ '-' :: lv) = vg ++ '/' :: lv := by
  intro vg
  induction vg with
  | nil => intro h; exact absurd rfl h
  | cons a t ih =>
    intro _ h1 lv hlv h2
    simp only [List.mem_cons, not_or] at h1
    obtain ⟨h1a, h1t⟩ := h1
    have ha : a ≠ '-' := fun hc => h1a hc.symm
    cases t with
    | nil =>
      cases lv with
      | nil => exact absurd rfl hlv
      | cons c v =>
        have hc : c ≠ '-' := by
          intro hc
          exact h2 (by simp [hc])
        simp only [List.cons_append, List.nil_append, subFirstSingleHyphen]
        simp [ha, hc]
    | cons b u =>
      have hb : ¬ (b = '-') := by
        intro hb
        exact h1t (by simp [hb])
      cases u with
      | nil =>
        simp only [List.cons_append, List.nil_append, subFirstSingleHyphen]
        rw [if_neg (fun hg => hb hg.2.1)]
        have := ih (by simp) h1t lv hlv h2
        simp only [List.cons_append, List.nil_append] at this
        rw [this]
      | cons c v =>
        simp only [List.cons_append, subFirstSingleHyphen, List.append_eq]
        rw [if_neg (fun hg => hb hg.2.1)]
        have := ih (by simp) h1t lv hlv h2
        simp only [List.cons_append, List.append_eq] at this
        rw [this]

/-- C6 counterexample: the transform is not idempotent on a
`vgname-lvname-withdashes` device-mapper name (one application yields
`vgname/lvname-withdashes`, a second changes it again), and on the
device-mapper name `a---b` (volume group `a-`, logical volume `b`) the
output still holds a doubled hyphen and no inserted path separator. -/
theorem c6_counterexample_transform :
    dmAliasTransform "vgname-lvname--withdashes" = "vgname/lvname-withdashes"
    ∧ dmAliasTransform "vgname/lvname-withdashes" = "vgname/lvname/withdashes"
    ∧ ("vgname/lvname-withdashes" : String) ≠ "vgname/lvname/withdashes"
    ∧ dmAliasTransform "a---b" = "a--b"
    ∧ hasDoubleHyphen (dmAliasTransform "a---b").data = true
    ∧ List.count '/' (dmAliasTransform "a---b").data = 0 := by
  exact ⟨rfl, rfl, by decide, rfl, by decide, by decide⟩

/-- C6 amended: the transform substitutes the first hyphen flanked by
non-hyphens with a path separator and then collapses doubled hyphens in
one non-recursive pass; for a `vgname-lvname` input whose two names hold
no hyphen and no slash, the output is `vgname/lvname` — no doubled
hyphens, exactly one path separator, at the position of the original
hyphen — and re-applying the transform to that output leaves it
unchanged. -/
theorem c6_amended_alias_transform :
    ∀ vg lv : List Char, vg ≠ [] → lv ≠ [] → '-' ∉ vg → '-' ∉ lv →
      '/' ∉ vg → '/' ∉ lv →
      dmAliasTransform (String.mk (vg ++ '-' :: lv)) =
        String.mk (vg ++ '/' :: lv)
      ∧ hasDoubleHyphen (vg ++ '/' :: lv) = false
      ∧ List.count '/' (vg ++ '/' :: lv) = 1
      ∧ dmAliasTransform (String.mk (vg ++ '/' :: lv)) =
        String.mk (vg ++ '/' :: lv) := by
  intro vg lv hvg hlv hdv hdl hsv hsl
  have hmem : '-' ∉ vg ++ '/' :: lv := by
    simp only [List.mem_append, List.mem_cons, not_or]
    exact ⟨hdv, by decide, hdl⟩
  refine ⟨?_, hasDoubleHyphen_eq_false _ hmem, ?_, ?_⟩
  · unfold dmAliasTransform
    rw [show (String.mk (vg ++ '-' :: lv)).data = vg ++ '-' :: lv from rfl,
      subFirstSingleHyphen_insert vg hvg hdv lv hlv hdl,
      collapseDoubleHyphens_eq_self _ hmem]
  · rw [List.count_append, List.count_cons_self,
      List.count_eq_zero.mpr hsv, List.count_eq_zero.mpr hsl]
  · unfold dmAliasTransform
    rw [show (String.mk (vg ++ '/' :: lv)).data = vg ++ '/' :: lv from rfl,
      subFirstSingleHyphen_eq_self _ hmem,
      collapseDoubleHyphens_eq_self _ hmem]

/-- Witness for the amended C6 at `vgname` and `lvname`. -/
theorem c6_amended_alias_transform_witness :
    ("vgname".data ≠ [] ∧ "lvname".data ≠ [] ∧ '-' ∉ "vgname".data ∧
      '-' ∉ "lvname".data ∧ '/' ∉ "vgname".data ∧ '/' ∉ "lvname".data)
    ∧ dmAliasTransform "vgname-lvname" = "vgname/lvname"
    ∧ dmAliasTransform "vgname/lvname" = "vgname/lvname" := by
  refine ⟨by decide, ?_, ?_⟩
  · exact (c6_amended_alias_transform "vgname".data "lvname".data (by decide)
      (by decide) (by decide) (by decide) (by decide) (by decide)).1
  · exact (c6_amended_alias_transform "vgname".data "lvname".data (by decide)
      (by decide) (by decide) (by decide) (by decide) (by decide)).2.2.2

/-- `List.find?` only depends on the pointwise behaviour of its
predicate. -/
theorem find?_congruent {α : Type} (p q : α → Bool) (h : ∀ a, p a = q a) :
    ∀ l : List α, l.find? p = l.find? q := by
  intro l
  induction l with
  | nil => rfl
  | cons a t ih =>
    simp only [List.find?]
    rw [h a, ih]

/-- C7: with an explicit device path `get_info` resolves through the
single-device lookup regardless of label and UUID; otherwise it returns
the first discovered info matching the selector's label, else (no label)
the first matching its UUID, and raises a not-found error when the
selector carries nothing or nothing matches. -/
theorem c7_get_info_resolution :
    ∀ (oracle : Option String → Option (List LsblkEntry))
      (infos : List DeviceInfo) (fs : Filesystem),
      (∀ d, fs.device = some d →
        get_info oracle infos fs =
          (get_info_for_device oracle infos d).map fun r => r.1)
      ∧ (fs.device = none → ∀ l, fs.label = some l →
        get_info oracle infos fs =
          match infos.find? (fun i => i.label == some l) with
          | some info => .ok info
          | none => .error (noDeviceFoundMsg fs))
      ∧ (fs.device = none → fs.label = none → ∀ u, fs.uuid = some u →
        get_info oracle infos fs =
          match infos.find? (fun i => i.uuid == some u) with
          | some info => .ok info
          | none => .error (noDeviceFoundMsg fs))
      ∧ (fs.device = none → fs.label = none → fs.uuid = none →
        get_info oracle infos fs = .error (noDeviceFoundMsg fs)) := by
  intro oracle infos fs
  refine ⟨fun d hd => ?_, fun hd l hl => ?_, fun hd hl u hu => ?_,
    fun hd hl hu => ?_⟩
  · simp [get_info, hd]
  · have hp : ∀ i, is_targeted_by_filesystem fs i = (i.label == some l) :=
      fun i => by simp [is_targeted_by_filesystem, hl]
    simp only [get_info, hd, find?_congruent _ _ hp infos]
  · have hp : ∀ i, is_targeted_by_filesystem fs i = (i.uuid == some u) :=
      fun i => by simp [is_targeted_by_filesystem, hl, hu]
    simp only [get_info, hd, find?_congruent _ _ hp infos]
  · have hp : infos.find? (is_targeted_by_filesystem fs) = none :=
      List.find?_eq_none.mpr fun i _ => by
        simp [is_targeted_by_filesystem, hl, hu]
    simp only [get_info, hd, hp]

/-- Witness for C7: a selector carrying only a label resolves to the
first discovered info with that label. -/
theorem c7_get_info_resolution_witness :
    ((⟨none, some "data", none, "ext4", none⟩ : Filesystem).device = none
      ∧ (⟨none, some "data", none, "ext4", none⟩ : Filesystem).label =
        some "data")
    ∧ get_info (fun _ => none)
        [DeviceInfo.mk "/dev/sda1" "part" (some "ext4") (some "data") none []]
        ⟨none, some "data", none, "ext4", none⟩ =
      .ok (DeviceInfo.mk "/dev/sda1" "part" (some "ext4") (some "data")
        none []) := by
  refine ⟨⟨rfl, rfl⟩, ?_⟩
  have h := (c7_get_info_resolution (fun _ => none)
    [DeviceInfo.mk "/dev/sda1" "part" (some "ext4") (some "data") none []]
    ⟨none, some "data", none, "ext4", none⟩).2.1 rfl "data" rfl
  rw [h]
  rfl

/-- C8: `_from_system` with `update = False` leaves the cached list
unchanged; `get_info_for_device` returns a cached entry with no query,
and on a cache miss issues exactly one single-device query, returns its
result, and still leaves the cache unchanged, so a repeated lookup of the
same uncached path queries the system again. -/
theorem c8_get_info_for_device_cache :
    ∀ (oracle : Option String → Option (List LsblkEntry))
      (infos : List DeviceInfo) (d : String),
      (∀ dev r, fromSystem oracle infos false dev = .ok r → r.2 = infos)
      ∧ (∀ info, infos.find? (fun i => i.device == d) = some info →
        get_info_for_device oracle infos d = .ok (info, infos, 0))
      ∧ (infos.find? (fun i => i.device == d) = none →
        (∀ e, fromSystem oracle infos false (some d) = .error e →
          get_info_for_device oracle infos d = .error e)
        ∧ (∀ di infos2,
          fromSystem oracle infos false (some d) = .ok (some di, infos2) →
          infos2 = infos
          ∧ get_info_for_device oracle infos d = .ok (di, infos2, 1)
          ∧ get_info_for_device oracle infos2 d = .ok (di, infos2, 1))) := by
  intro oracle infos d
  have hframe : ∀ dev r, fromSystem oracle infos false dev = .ok r →
      r.2 = infos := by
    intro dev r hr
    rcases horacle : oracle dev with _ | entries
    · simp only [fromSystem, horacle] at hr
      exact Except.noConfusion hr
    · simp only [fromSystem, horacle] at hr
      rcases dev with _ | dv
      · simp only [Bool.false_eq_true, if_false] at hr
        cases hr
        rfl
      · rcases hlast : (parseEntryList false entries).1.getLast? with _ | di
        · simp only [hlast] at hr
          exact Except.noConfusion hr
        · simp only [hlast, Bool.false_eq_true, if_false] at hr
          cases hr
          rfl
  refine ⟨hframe, fun info hfind => ?_, fun hfind => ⟨fun e he => ?_,
    fun di infos2 hok => ?_⟩⟩
  · simp [get_info_for_device, hfind]
  · simp [get_info_for_device, hfind, he]
  · have h2 : infos2 = infos := hframe (some d) (some di, infos2) hok
    subst h2
    exact ⟨rfl, by simp [get_info_for_device, hfind, hok],
      by simp [get_info_for_device, hfind, hok]⟩

/-- Witness for C8: an empty cache misses, the single-device query runs
once, its parsed info is returned, and the cache stays empty. -/
theorem c8_get_info_for_device_cache_witness :
    (([] : List DeviceInfo).find?
      (fun i => i.device == "/dev/sda") = none
      ∧ fromSystem
        (fun _ => some [LsblkEntry.mk "/dev/sda" "disk" none none none []])
        [] false (some "/dev/sda") =
        .ok (some (DeviceInfo.mk "/dev/sda" "disk" none none none []), []))
    ∧ get_info_for_device
        (fun _ => some [LsblkEntry.mk "/dev/sda" "disk" none none none []])
        [] "/dev/sda" =
      .ok (DeviceInfo.mk "/dev/sda" "disk" none none none [], [], 1) := by
  have hfs : fromSystem
      (fun _ => some [LsblkEntry.mk "/dev/sda" "disk" none none none []])
      [] false (some "/dev/sda") =
      .ok (some (DeviceInfo.mk "/dev/sda" "disk" none none none []), []) := by
    simp [fromSystem, parseEntryList, parseEntry]
  refine ⟨⟨rfl, hfs⟩, ?_⟩
  exact ((c8_get_info_for_device_cache
    (fun _ => some [LsblkEntry.mk "/dev/sda" "disk" none none none []])
    [] "/dev/sda").2.2 rfl).2
    (DeviceInfo.mk "/dev/sda" "disk" none none none []) [] hfs |>.2.1

/-- C9: during mount enforcement every desired filesystem with a
mountpoint gets its directory created and a mount attempt; exit status 5
("already mounted") is treated as success like 0, and any other non-zero
mount status aborts the run with a failure. -/
theorem c9_mount_enforcement :
    (∀ (fss : List Filesystem) (mkdirRc mountRc : String → Nat),
      (∀ fs ∈ fss, ∀ mp, fs.mountpoint = some mp →
        mkdirRc mp = 0 ∧ (mountRc mp = 0 ∨ mountRc mp = 5)) →
      update_filesystems_mounts fss mkdirRc mountRc = .ok (mountCmds fss))
    ∧ (∀ (fs : Filesystem) (rest : List Filesystem)
        (mkdirRc mountRc : String → Nat) (mp : String),
      fs.mountpoint = some mp → mkdirRc mp = 0 → mountRc mp ≠ 0 →
      mountRc mp ≠ 5 →
      update_filesystems_mounts (fs :: rest) mkdirRc mountRc =
        .error (.mountFailed mp (mountRc mp))) := by
  constructor
  · intro fss mkdirRc mountRc
    induction fss with
    | nil => intro _; rfl
    | cons fs rest ih =>
      intro h
      have hrest := ih fun g hg => h g (List.mem_cons_of_mem fs hg)
      rcases hmp : fs.mountpoint with _ | mp
      · have hcmds : mountCmds (fs :: rest) = mountCmds rest := by
          simp [mountCmds, hmp]
        simp only [update_filesystems_mounts, hmp, hrest, hcmds]
      · obtain ⟨hmk, hmt⟩ := h fs (List.mem_cons_self fs rest) mp hmp
        have hcmds : mountCmds (fs :: rest) =
            ["mkdir", "-p", mp] :: ["mount", mp] :: mountCmds rest := by
          simp [mountCmds, hmp]
        simp only [update_filesystems_mounts, hmp]
        rw [if_neg (by simp [hmk]), if_pos hmt, hrest]
        simp [hcmds]
  · intro fs rest mkdirRc mountRc mp hmp hmk hm0 hm5
    simp [update_filesystems_mounts, hmp, hmk, hm0, hm5]

/-- Witness for C9: one filesystem mounted at `/data` whose mount returns
the tolerated status 5 yields the mkdir and mount commands, and the same
filesystem with mount status 32 aborts with a mount failure. -/
theorem c9_mount_enforcement_witness :
    (∀ fs ∈ [(⟨none, none, none, "ext4", some "/data"⟩ : Filesystem)],
      ∀ mp, fs.mountpoint = some mp →
        (fun _ => 0 : String → Nat) mp = 0 ∧
          ((fun _ => 5 : String → Nat) mp = 0 ∨
            (fun _ => 5 : String → Nat) mp = 5))
    ∧ update_filesystems_mounts
        [(⟨none, none, none, "ext4", some "/data"⟩ : Filesystem)]
        (fun _ => 0) (fun _ => 5) =
      .ok [["mkdir", "-p", "/data"], ["mount", "/data"]]
    ∧ update_filesystems_mounts
        [(⟨none, none, none, "ext4", some "/data"⟩ : Filesystem)]
        (fun _ => 0) (fun _ => 32) =
      .error (.mountFailed "/data" 32) := by
  refine ⟨by simp, ?_, ?_⟩
  · exact c9_mount_enforcement.1
      [(⟨none, none, none, "ext4", some "/data"⟩ : Filesystem)]
      (fun _ => 0) (fun _ => 5) (by simp)
  · exact c9_mount_enforcement.2 ⟨none, none, none, "ext4", some "/data"⟩ []
      (fun _ => 0) (fun _ => 32) "/data" rfl rfl (by decide) (by decide)

end Kisiac
